import Mathlib

/-!
Verification of the PeerCat SDK client (TypeScript) against its
natural-language specification.

The development shallowly embeds the relevant parts of the source:
  * `src/errors.ts`: `parseRateLimitHeaders`, the `PeerCatError` class
    hierarchy and `PeerCatError.fromResponse`;
  * `src/client.ts`: the `PeerCat` constructor, `getHistory` query
    building, and the internal `request` retry loop.

JavaScript machine-level details are made explicit: string truthiness is
non-emptiness, number truthiness is being nonzero (NaN is conflated with an
absent value, which has the same truthiness and is never distinguished by
the code under study), `parseInt(s, 10)` is modelled by `parseIntJS`, and
subclass identity (`instanceof`) is modelled by the `name` field, which the
source sets to the class name in every constructor. A string property that
can be undefined at runtime (the destructured fields of a possibly
malformed error body, and the error fields copied from them) is an
`Option String`, with `none` for undefined.
-/

/-- JavaScript `parseInt(s, 10)`: skip leading whitespace, optional sign,
then a maximal run of decimal digits; `none` models `NaN` (no digits). -/
def parseIntJS (s : String) : Option Int :=
  let cs := s.toList.dropWhile (fun c => c = ' ' || c = '\t' || c = '\n' || c = '\r')
  match cs with
  | '-' :: rest => (leadDigits rest).map (fun n => -(n : Int))
  | '+' :: rest => (leadDigits rest).map (fun n => (n : Int))
  | rest => (leadDigits rest).map (fun n => (n : Int))
where
  /-- Value of the maximal leading digit run; `none` if there is none. -/
  leadDigits (cs : List Char) : Option Nat :=
    let ds := cs.takeWhile Char.isDigit
    if ds.isEmpty then none
    else some (ds.foldl (fun acc c => acc * 10 + (c.toNat - 48)) 0)

/-- `a.startsWith b` on character lists. -/
def startsWithL : List Char → List Char → Bool
  | _, [] => true
  | [], _ :: _ => false
  | a :: as, b :: bs => a = b && startsWithL as bs

/-- Substring occurrence on character lists. -/
def hasSubL : List Char → List Char → Bool
  | [], needle => needle.isEmpty
  | a :: as, needle => startsWithL (a :: as) needle || hasSubL as needle

/-- JavaScript `String.prototype.includes`. -/
def jsIncludes (s sub : String) : Bool :=
  hasSubL s.toList sub.toList

/-- JavaScript truthiness of a number-or-undefined value (`0`, `NaN` and
`undefined` are falsy; `none` covers the latter two). -/
def jsNumTruthy : Option Int → Bool
  | none => false
  | some n => n != 0

/-- Response headers, as the finite map the transport exposes via
`headers.get` (the mock in the tests and the real `Headers` both behave as
a lookup returning `null` when absent). -/
abbrev Headers0 := List (String × String)

/-- `headers.get(name)`. -/
def hget (hs : Headers0) (nm : String) : Option String :=
  match hs with
  | [] => none
  | (k, v) :: rest => if k = nm then some v else hget rest nm

/-- Rate limit information from response headers (`RateLimitInfo` in
`src/errors.ts`). -/
structure RateLimitInfo where
  limit : Option Int
  remaining : Option Int
  reset : Option Int
  retryAfter : Option Int
deriving DecidableEq

/-- One field of `parseRateLimitHeaders`: `if (v) info.f = parseInt(v, 10)`.
The header string must be truthy (nonempty); an unparsable value stores
`NaN`, conflated here with `none` (same truthiness, never otherwise used). -/
def parseRLField (hs : Headers0) (nm : String) : Option Int :=
  match hget hs nm with
  | none => none
  | some v => if v = "" then none else parseIntJS v

/-- `parseRateLimitHeaders` from `src/errors.ts`. -/
def parseRateLimitHeaders (hs : Headers0) : RateLimitInfo :=
  { limit := parseRLField hs "X-RateLimit-Limit"
    remaining := parseRLField hs "X-RateLimit-Remaining"
    reset := parseRLField hs "X-RateLimit-Reset"
    retryAfter := parseRLField hs "Retry-After" }

/-- The result of destructuring the `error` property of a parsed
non-success body in `fromResponse`. At runtime the body need not conform
to the `ApiErrorResponse` TypeScript shape, so each destructured property
may be undefined: a partial object yields some properties undefined, and
a primitive `error` value destructures with all four undefined. `none`
models an undefined (or, for `param`, null) property. -/
structure ApiErrorPayload where
  type : Option String
  code : Option String
  message : Option String
  param : Option String
deriving DecidableEq

/-- A `PeerCatError` value (`src/errors.ts`). The `name` field identifies
the concrete subclass, exactly as every constructor in the source sets
`this.name` to a fixed literal; `message`, `type` and `code` may be
undefined when the error was built from a malformed payload whose
destructured properties were undefined; `rateLimitInfo` and `retryAfter`
are only ever set by the `RateLimitError` constructor. -/
structure PeerCatError where
  name : String
  message : Option String
  type : Option String
  code : Option String
  param : Option String
  status : Int
  rateLimitInfo : Option RateLimitInfo
  retryAfter : Option Int
deriving DecidableEq

/-- The base `PeerCatError` constructor. -/
def PeerCatError.mkE (message type code : Option String) (param : Option String)
    (status : Int) : PeerCatError :=
  { name := "PeerCatError", message, type, code, param, status
    rateLimitInfo := none, retryAfter := none }

/-- The `AuthenticationError` constructor. -/
def AuthenticationError (message code : Option String) (param : Option String) : PeerCatError :=
  { name := "AuthenticationError", message, type := some "authentication_error", code, param
    status := 401, rateLimitInfo := none, retryAfter := none }

/-- The `InvalidRequestError` constructor. -/
def InvalidRequestError (message code : Option String) (param : Option String) : PeerCatError :=
  { name := "InvalidRequestError", message, type := some "invalid_request_error", code, param
    status := 400, rateLimitInfo := none, retryAfter := none }

/-- The `InsufficientCreditsError` constructor. -/
def InsufficientCreditsError (message code : Option String) : PeerCatError :=
  { name := "InsufficientCreditsError", message, type := some "insufficient_credits", code
    param := none, status := 402, rateLimitInfo := none, retryAfter := none }

/-- The `RateLimitError` constructor: stores the parsed hints and copies
`rateLimitInfo?.retryAfter` into its own `retryAfter` field. -/
def RateLimitError (message code : Option String) (rli : Option RateLimitInfo) : PeerCatError :=
  { name := "RateLimitError", message, type := some "rate_limit_error", code
    param := none, status := 429, rateLimitInfo := rli
    retryAfter := rli.bind RateLimitInfo.retryAfter }

/-- The `NotFoundError` constructor. -/
def NotFoundError (message code : Option String) (param : Option String) : PeerCatError :=
  { name := "NotFoundError", message, type := some "not_found", code, param
    status := 404, rateLimitInfo := none, retryAfter := none }

/-- The `NetworkError` constructor (the `cause` argument carries no data
observed by any claim). -/
def NetworkError (message : String) : PeerCatError :=
  { name := "NetworkError", message := some message, type := some "network_error"
    code := some "connection_failed", param := none, status := 0
    rateLimitInfo := none, retryAfter := none }

/-- The `TimeoutError` constructor. -/
def TimeoutError (message : String) : PeerCatError :=
  { name := "TimeoutError", message := some message, type := some "timeout_error"
    code := some "timeout", param := none, status := 0
    rateLimitInfo := none, retryAfter := none }

/-- `PeerCatError.fromResponse` from `src/errors.ts`: a switch on the
destructured payload type tag; an undefined tag matches no case and falls
to the default, which preserves the destructured fields and the observed
status. -/
def PeerCatError.fromResponse (p : ApiErrorPayload) (status : Int)
    (rli : Option RateLimitInfo) : PeerCatError :=
  if p.type = some "authentication_error" then AuthenticationError p.message p.code p.param
  else if p.type = some "invalid_request_error" then InvalidRequestError p.message p.code p.param
  else if p.type = some "insufficient_credits" then InsufficientCreditsError p.message p.code
  else if p.type = some "rate_limit_error" then RateLimitError p.message p.code rli
  else if p.type = some "not_found" then NotFoundError p.message p.code p.param
  else PeerCatError.mkE p.message p.type p.code p.param status

/-- An exception value that is not a `PeerCatError`: a JavaScript `Error`
with a `name`, a `message`, and whether it is an `instanceof TypeError`. -/
structure PlainErr where
  name : String
  message : String
  isTypeError : Bool
deriving DecidableEq

/-- Any exception the `try` block of `request` can observe. -/
inductive JsError where
  | peercat (e : PeerCatError)
  | plain (e : PlainErr)
deriving DecidableEq

/-- `error.name` (every `Error` has one). -/
def JsError.errName : JsError → String
  | .peercat e => e.name
  | .plain e => e.name

/-- How a non-success body behaves when `response.json()` is awaited and
the result is given to `PeerCatError.fromResponse`. -/
inductive ErrBody where
  /-- `response.json()` rejects (not JSON at all). -/
  | parseFail
  /-- Valid JSON whose `error` property is undefined or null, so the
  destructuring in `fromResponse` throws a `TypeError` (JavaScript throws
  only for those two values). -/
  | noErrorObj
  /-- Valid JSON whose `error` property is any other value: destructuring
  succeeds and yields the four possibly-undefined properties. This covers
  a well-formed payload, a partial object, and a primitive (all four
  properties undefined) alike. -/
  | withError (p : ApiErrorPayload)
deriving DecidableEq

/-- What one invocation of the transport does, as observed by the `try`
block of `request`. -/
inductive AttemptOutcome where
  /-- `response.ok`, and `response.json()` resolves with a body
  (represented opaquely by its text; the value is returned unchanged). -/
  | success (body : String)
  /-- `response.ok`, but `response.json()` rejects with the given error
  (a JSON parse failure). -/
  | okParseFail (e : PlainErr)
  /-- `!response.ok`: an HTTP error response with a status, a status text,
  headers, and an error body. -/
  | httpErr (status : Int) (statusText : String) (headers : Headers0) (body : ErrBody)
  /-- The transport call itself rejects with the given error (network
  failure, abort, ...). -/
  | reject (e : PlainErr)
deriving DecidableEq

/-- The message of the `TypeError` thrown when `fromResponse` destructures
an undefined or null `error` property (exact engine wording immaterial; it
does not contain the substring fetch). -/
def destructureMsg : String := "Cannot destructure property type of response.error as it is undefined"

/-- Outcome of a whole call: the value returned, or the error thrown. -/
inductive ReqResult where
  | ok (body : String)
  | fail (e : JsError)
deriving DecidableEq

/-- The `try` block of one attempt of `request`: on `!response.ok` the
error body is parsed (with the synthesized `api_error` fallback for
non-JSON bodies) and `PeerCatError.fromResponse` is thrown; on success the
parsed body is returned, or the parse error propagates. -/
def tryAttempt : AttemptOutcome → ReqResult
  | .success b => .ok b
  | .okParseFail e => .fail (.plain e)
  | .reject e => .fail (.plain e)
  | .httpErr st stx hs body =>
    let rli := parseRateLimitHeaders hs
    match body with
    | .parseFail =>
      let p : ApiErrorPayload :=
        { type := some "api_error", code := some ("http_" ++ toString st)
          message := some ("HTTP " ++ toString st ++ ": " ++ stx), param := none }
      .fail (.peercat (PeerCatError.fromResponse p st (some rli)))
    | .noErrorObj =>
      .fail (.plain { name := "TypeError", message := destructureMsg, isTypeError := true })
    | .withError p =>
      .fail (.peercat (PeerCatError.fromResponse p st (some rli)))

/-- The immediate-rethrow test of the catch block: a `PeerCatError` with
status in `[400, 500)` that is not a `RateLimitError` is rethrown at once. -/
def throwsImmediately : JsError → Bool
  | .peercat e => decide (400 ≤ e.status) && decide (e.status < 500) && (e.name != "RateLimitError")
  | .plain _ => false

/-- A failure the retry loop is willing to retry (the negation of the
immediate rethrow). -/
def retryable (e : JsError) : Bool := !(throwsImmediately e)

/-- The message built by `request` for a timed-out attempt. -/
def timeoutMessage (tm : Int) : String :=
  "Request timed out after " ++ toString tm ++ "ms"

/-- `error instanceof TypeError && error.message.includes(..fetch..)`. -/
def isFetchTypeError : JsError → Bool
  | .peercat _ => false
  | .plain e => e.isTypeError && jsIncludes e.message "fetch"

/-- The two reclassification steps of the catch block, in source order:
an abort-named error is replaced by a `TimeoutError`, then a `TypeError`
whose message mentions fetch is replaced by a `NetworkError`; both tests
look at the original error. -/
def reclassify (tm : Int) (e : JsError) : JsError :=
  let l := e
  let l := if e.errName = "AbortError" then JsError.peercat (TimeoutError (timeoutMessage tm)) else l
  if isFetchTypeError e then JsError.peercat (NetworkError "Network request failed") else l

/-- The backoff delay computed before a retry: exponential
`min(1000 * 2^attemptIdx, 10000)`, overridden by `retryAfter * 1000` when
the original error is a `RateLimitError` with a truthy `retryAfter`. -/
def computeDelay (e : JsError) (attemptIdx : Nat) : Int :=
  let d : Int := min (1000 * 2 ^ attemptIdx) 10000
  match e with
  | .peercat err =>
    if err.name = "RateLimitError" && jsNumTruthy err.retryAfter
    then (err.retryAfter.getD 0) * 1000 else d
  | .plain _ => d

/-- A trace of one call through `request`: how many times the transport
was invoked, the delays slept between attempts, and the final outcome. -/
structure Trace where
  calls : Nat
  delays : List Int
  result : ReqResult
deriving DecidableEq

/-- The retry loop of `request`, with the transport given as the outcome
of each attempt index. `fuel` counts the loop iterations left
(`maxRetries + 1 - attemptIdx` at entry of each iteration); the base case
is the loop exiting and throwing `lastError ?? new NetworkError(...)`. -/
def loopGo (tm : Int) (tr : Nat → AttemptOutcome) (maxRetries : Nat) :
    Nat → Nat → Option JsError → Trace
  | 0, _, lastErr =>
    { calls := 0, delays := []
      result := .fail (lastErr.getD (JsError.peercat (NetworkError "Request failed after retries"))) }
  | fuel + 1, attemptIdx, _lastErr =>
    match tryAttempt (tr attemptIdx) with
    | .ok b => { calls := 1, delays := [], result := .ok b }
    | .fail e =>
      if throwsImmediately e then { calls := 1, delays := [], result := .fail e }
      else
        let le := reclassify tm e
        let rest := loopGo tm tr maxRetries fuel (attemptIdx + 1) (some le)
        if attemptIdx < maxRetries then
          { calls := rest.calls + 1, delays := computeDelay e attemptIdx :: rest.delays
            result := rest.result }
        else
          { calls := rest.calls + 1, delays := rest.delays, result := rest.result }

/-- The whole of `request`: run the loop from attempt 0 with no recorded
error; the loop body executes for `attempt` in `[0, maxRetries]`. -/
def request (tm : Int) (maxRetries : Nat) (tr : Nat → AttemptOutcome) : Trace :=
  loopGo tm tr maxRetries (maxRetries + 1) 0 none

/-- The constructor configuration (`PeerCatConfig` in `src/types.ts`); a
missing optional field is `none`, and the pluggable transport is recorded
only by its presence (nothing else about it is observed at construction). -/
structure PeerCatConfig where
  apiKey : String
  baseUrl : Option String
  timeout : Option Int
  maxRetries : Option Nat
  hasFetch : Bool
deriving DecidableEq

/-- The configuration fields a constructed client stores; the record is
immutable, mirroring the `readonly` fields of the class. -/
structure PeerCatState where
  apiKey : String
  baseUrl : String
  timeout : Int
  maxRetries : Nat
deriving DecidableEq

/-- `s.replace(/\/$/, d)` with the empty replacement: drops one trailing
slash if present (the regex matches at most once, at the very end). -/
def stripTrailingSlash (s : String) : String :=
  match s.toList.reverse with
  | '/' :: rest => String.mk rest.reverse
  | _ => s

/-- The `PeerCat` constructor: rejects a falsy (empty) API key, applies
defaults, strips one trailing slash from the base URL, and rejects when
neither a supplied nor a global transport exists. -/
def mkPeerCat (cfg : PeerCatConfig) (globalFetchAvail : Bool) : Except String PeerCatState :=
  if cfg.apiKey = "" then .error "API key is required"
  else if !(cfg.hasFetch || globalFetchAvail) then
    .error "fetch is not available. Please provide a fetch implementation or use Node.js 18+"
  else
    .ok { apiKey := cfg.apiKey
          baseUrl := stripTrailingSlash (cfg.baseUrl.getD "https://api.peerc.at")
          timeout := cfg.timeout.getD 60000
          maxRetries := cfg.maxRetries.getD 3 }

/-- `getHistory` path building: `limit` then `offset` are set on the query
string only when truthy, and the `?` is appended only when the query string
is nonempty. -/
def buildHistoryPath (limit offset : Option Int) : String :=
  let entries : List (String × String) :=
    (if jsNumTruthy limit then [("limit", toString (limit.getD 0))] else []) ++
    (if jsNumTruthy offset then [("offset", toString (offset.getD 0))] else [])
  let qs := String.intercalate "&" (entries.map (fun p => p.1 ++ "=" ++ p.2))
  if qs = "" then "/v1/history" else "/v1/history?" ++ qs

/-- The list of delays slept when attempts `a, a+1, ...` keep failing with
errors `e a, e (a+1), ...` for `n` further iterations. -/
def delaysFor (e : Nat → JsError) : Nat → Nat → List Int
  | _, 0 => []
  | a, n + 1 => computeDelay (e a) a :: delaysFor e (a + 1) n

/-- Transport for the C1 witness: always HTTP 400 with a structured
`invalid_request_error` body. -/
def trC1 : Nat → AttemptOutcome :=
  fun _ => .httpErr 400 "Bad Request" []
    (.withError ⟨some "invalid_request_error", some "bad_request", some "Bad request", none⟩)

/-- Transport for the C3 witness: the fetch call always rejects with a
connection-failure `TypeError`. -/
def trC3 : Nat → AttemptOutcome := fun _ => .reject ⟨"TypeError", "Failed to fetch", true⟩

/-- Transport for the C4 witness: two 5xx structured errors, then success. -/
def trC4 : Nat → AttemptOutcome := fun k =>
  if k ≤ 1 then
    .httpErr 500 "Internal Server Error" []
      (.withError ⟨some "server_error", some "internal_error", some "Error", none⟩)
  else .success "bal"

/-- Does a call outcome reject with an error of the synthesized generic
api_error category? -/
def isSynthApiError : ReqResult → Bool
  | .fail (.peercat e) => decide (e.type = some "api_error")
  | _ => false

/-- Transport for the C7 witness: every fetch call rejects with the abort
error raised by the cancelled `AbortController`. -/
def trC7 : Nat → AttemptOutcome := fun _ => .reject ⟨"AbortError", "The operation was aborted", false⟩

deriving instance DecidableEq for Except

/-- Does a call outcome reject with a categorized `PeerCatError`? -/
def failsWithPeerCat : ReqResult → Bool
  | .fail (.peercat _) => true
  | _ => false

/-- Transport for the C10 witness: always HTTP success with a body that is
not JSON. -/
def trC10 : Nat → AttemptOutcome := fun _ => .okParseFail ⟨"SyntaxError", "Unexpected token", false⟩

/-- `delaysFor` written as a map over `List.range`. -/
lemma delaysFor_eq_range (e : Nat → JsError) :
    ∀ (n a : Nat), delaysFor e a n = (List.range n).map (fun i => computeDelay (e (a + i)) (a + i)) := by
  intro n
  induction n with
  | zero => intro a; simp [delaysFor]
  | succ n ih =>
    intro a
    rw [List.range_succ_eq_map]
    simp only [delaysFor, List.map_cons, List.map_map, Nat.add_zero, ih]
    congr 1
    apply List.map_congr_left
    intro i _
    have hx : a + 1 + i = a + Nat.succ i := by omega
    simp [Function.comp, hx]

/-- One unfolding of the loop when the attempt fails with a failure that is
not rethrown immediately. -/
lemma loopGo_step_fail (tm : Int) (tr : Nat → AttemptOutcome) (B fuel a : Nat)
    (last : Option JsError) (e : JsError)
    (h1 : tryAttempt (tr a) = .fail e) (h2 : throwsImmediately e = false) :
    loopGo tm tr B (fuel + 1) a last =
      if a < B then
        { calls := (loopGo tm tr B fuel (a + 1) (some (reclassify tm e))).calls + 1
          delays := computeDelay e a :: (loopGo tm tr B fuel (a + 1) (some (reclassify tm e))).delays
          result := (loopGo tm tr B fuel (a + 1) (some (reclassify tm e))).result }
      else
        { calls := (loopGo tm tr B fuel (a + 1) (some (reclassify tm e))).calls + 1
          delays := (loopGo tm tr B fuel (a + 1) (some (reclassify tm e))).delays
          result := (loopGo tm tr B fuel (a + 1) (some (reclassify tm e))).result } := by
  simp [loopGo, h1, h2]

/-- One unfolding of the loop when the attempt succeeds. -/
lemma loopGo_step_ok (tm : Int) (tr : Nat → AttemptOutcome) (B fuel a : Nat)
    (last : Option JsError) (body : String) (h1 : tryAttempt (tr a) = .ok body) :
    loopGo tm tr B (fuel + 1) a last = { calls := 1, delays := [], result := .ok body } := by
  simp [loopGo, h1]

/-- If every loop body iteration from attempt `a` through attempt `B` fails
with a failure the loop does not rethrow immediately, the loop performs all
those attempts, sleeps the computed delay after each non-final one, and
finally throws the (reclassified) failure of attempt `B`. -/
lemma loopGo_all_fail (tm : Int) (tr : Nat → AttemptOutcome) (B : Nat) (e : Nat → JsError) :
    ∀ (f a : Nat) (last : Option JsError), a + f = B →
    (∀ k, a ≤ k → k ≤ B → tryAttempt (tr k) = .fail (e k) ∧ throwsImmediately (e k) = false) →
    loopGo tm tr B (f + 1) a last =
      { calls := f + 1, delays := delaysFor e a f
        result := .fail (reclassify tm (e B)) } := by
  intro f
  induction f with
  | zero =>
    intro a last ha h
    have haB : a = B := by omega
    subst haB
    have hB := h a (le_refl a) (le_refl a)
    have hnlt : ¬ a < a := by omega
    rw [loopGo_step_fail tm tr a 0 a last (e a) hB.1 hB.2]
    simp [hnlt, loopGo, delaysFor]
  | succ f ih =>
    intro a last ha h
    have hA := h a (le_refl a) (by omega)
    have hab : a < B := by omega
    rw [loopGo_step_fail tm tr B (f + 1) a last (e a) hA.1 hA.2]
    rw [ih (a + 1) (some (reclassify tm (e a))) (by omega)
      (fun k hk1 hk2 => h k (by omega) hk2)]
    simp [hab, delaysFor]

/-- If attempts `a, ..., a+n-1` fail with failures the loop retries and
attempt `a+n ≤ B` succeeds with `body`, the loop performs exactly `n+1`
attempts, sleeps the computed delay after each failure, and returns `body`. -/
lemma loopGo_succeeds (tm : Int) (tr : Nat → AttemptOutcome) (B : Nat) (e : Nat → JsError)
    (body : String) :
    ∀ (n a fuel : Nat) (last : Option JsError), a + fuel = B + 1 → a + n ≤ B →
    (∀ k, a ≤ k → k < a + n → tryAttempt (tr k) = .fail (e k) ∧ throwsImmediately (e k) = false) →
    tryAttempt (tr (a + n)) = .ok body →
    loopGo tm tr B fuel a last =
      { calls := n + 1, delays := delaysFor e a n, result := .ok body } := by
  intro n
  induction n with
  | zero =>
    intro a fuel last hfuel hn h hs
    obtain ⟨f, rfl⟩ : ∃ f, fuel = f + 1 := ⟨fuel - 1, by omega⟩
    rw [Nat.add_zero] at hs
    rw [loopGo_step_ok tm tr B f a last body hs]
    simp [delaysFor]
  | succ n ih =>
    intro a fuel last hfuel hn h hs
    obtain ⟨f, rfl⟩ : ∃ f, fuel = f + 1 := ⟨fuel - 1, by omega⟩
    have hA := h a (le_refl a) (by omega)
    have hab : a < B := by omega
    rw [loopGo_step_fail tm tr B f a last (e a) hA.1 hA.2]
    rw [ih (a + 1) f (some (reclassify tm (e a))) (by omega) (by omega)
      (fun k hk1 hk2 => h k (by omega) (by omega))
      (by rw [show a + 1 + n = a + (n + 1) from by omega]; exact hs)]
    simp [hab, delaysFor]

/-- Every `PeerCatError` thrown by an attempt comes out of
`PeerCatError.fromResponse`. -/
lemma tryAttempt_peercat (o : AttemptOutcome) (pe : PeerCatError)
    (h : tryAttempt o = .fail (.peercat pe)) :
    ∃ p st rli, pe = PeerCatError.fromResponse p st rli := by
  cases o with
  | success b => simp [tryAttempt] at h
  | okParseFail e => simp [tryAttempt] at h
  | reject e => simp [tryAttempt] at h
  | httpErr st stx hs body =>
    cases body with
    | parseFail =>
      simp only [tryAttempt, ReqResult.fail.injEq, JsError.peercat.injEq] at h
      exact ⟨_, st, some (parseRateLimitHeaders hs), h.symm⟩
    | noErrorObj => simp [tryAttempt] at h
    | withError p =>
      simp only [tryAttempt, ReqResult.fail.injEq, JsError.peercat.injEq] at h
      exact ⟨p, st, some (parseRateLimitHeaders hs), h.symm⟩

/-- An error produced by `fromResponse` whose subclass is `RateLimitError`
has status 429 (the constructor fixes it). -/
lemma fromResponse_rle_status (p : ApiErrorPayload) (st : Int) (rli : Option RateLimitInfo)
    (h : (PeerCatError.fromResponse p st rli).name = "RateLimitError") :
    (PeerCatError.fromResponse p st rli).status = 429 := by
  unfold PeerCatError.fromResponse at h ⊢
  split_ifs at h ⊢ with h1 h2 h3 h4 h5
  · exact absurd h (by simp [AuthenticationError])
  · exact absurd h (by simp [InvalidRequestError])
  · exact absurd h (by simp [InsufficientCreditsError])
  · rfl
  · exact absurd h (by simp [NotFoundError])
  · exact absurd h (by simp [PeerCatError.mkE])

/-- C1: if an attempt of a call fails with a categorized API error whose
HTTP status lies in [400,429) ∪ (429,500), the client performs exactly one
transport attempt, sleeps no delay, and rejects immediately with that
error, regardless of the configured retry budget. -/
theorem c1_client_error_single_attempt (tm : Int) (B : Nat) (tr : Nat → AttemptOutcome)
    (pe : PeerCatError)
    (h : tryAttempt (tr 0) = .fail (.peercat pe))
    (h1 : 400 ≤ pe.status) (h2 : pe.status < 500) (h3 : pe.status ≠ 429) :
    request tm B tr = { calls := 1, delays := [], result := .fail (.peercat pe) } := by
  have hname : pe.name ≠ "RateLimitError" := by
    intro hn
    obtain ⟨p, st, rli, rfl⟩ := tryAttempt_peercat _ _ h
    exact h3 (fromResponse_rle_status p st rli hn)
  have himm : throwsImmediately (.peercat pe) = true := by
    simp [throwsImmediately, h1, h2, hname]
  unfold request
  simp [loopGo, h, himm]

/-- C1 witness: a 400 response is surfaced after a single attempt even
with a budget of 3 retries. -/
theorem c1_witness :
    request 60000 3 trC1 =
      { calls := 1, delays := []
        result := .fail (.peercat (InvalidRequestError (some "Bad request") (some "bad_request") none)) } :=
  c1_client_error_single_attempt 60000 3 trC1
    (InvalidRequestError (some "Bad request") (some "bad_request") none)
    (by decide) (by decide) (by decide) (by decide)

/-- A payload whose type tag is the rate-limit category maps to the
`RateLimitError` constructor. -/
lemma fromResponse_rle (p : ApiErrorPayload) (st : Int) (rli : Option RateLimitInfo)
    (hty : p.type = some "rate_limit_error") :
    PeerCatError.fromResponse p st rli = RateLimitError p.message p.code rli := by
  unfold PeerCatError.fromResponse
  rw [hty]
  simp

/-- C2 counterexample: a rate-limit failure carrying the numeric
`Retry-After` header value 0 is followed by the exponential-backoff delay
of 1000 ms, not by `0 * 1000 = 0` ms as the claim requires. -/
theorem c2_counterexample :
    request 60000 1 (fun k =>
      if k = 0 then .httpErr 429 "Too Many Requests" [("Retry-After", "0")]
        (.withError ⟨some "rate_limit_error", some "rate_limit_exceeded", some "Rate limited", none⟩)
      else .success "bal") =
      { calls := 2, delays := [1000], result := .ok "bal" }
    ∧ (1000 : Int) ≠ (0 : Int) * 1000 :=
  ⟨by decide, by decide⟩

/-- C2 (amended): when the first attempt fails with a rate-limit-category
error, the delay before the second attempt is `R * 1000` ms whenever the
parsed `Retry-After` value `R` is truthy (nonzero); when no `Retry-After`
value was parsed, the delay is the exponential-backoff value
`min(1000 * 2^0, 10000) = 1000` ms. -/
theorem c2_retry_after_delay (tm : Int) (B : Nat) (tr : Nat → AttemptOutcome)
    (st : Int) (stx : String) (hs : Headers0) (p : ApiErrorPayload) (R : Int)
    (hB : 1 ≤ B)
    (h0 : tr 0 = .httpErr st stx hs (.withError p))
    (hty : p.type = some "rate_limit_error") :
    ((parseRateLimitHeaders hs).retryAfter = some R → R ≠ 0 →
      (request tm B tr).delays.head? = some (R * 1000))
    ∧ ((parseRateLimitHeaders hs).retryAfter = none →
      (request tm B tr).delays.head? = some 1000) := by
  have he : tryAttempt (tr 0) =
      .fail (.peercat (RateLimitError p.message p.code (some (parseRateLimitHeaders hs)))) := by
    rw [h0]
    simp [tryAttempt, fromResponse_rle p st _ hty]
  have himm : throwsImmediately
      (.peercat (RateLimitError p.message p.code (some (parseRateLimitHeaders hs)))) = false := by
    simp [throwsImmediately, RateLimitError]
  obtain ⟨B1, rfl⟩ : ∃ B1, B = B1 + 1 := ⟨B - 1, by omega⟩
  have hreq : (request tm (B1 + 1) tr).delays.head? =
      some (computeDelay
        (.peercat (RateLimitError p.message p.code (some (parseRateLimitHeaders hs)))) 0) := by
    unfold request
    rw [loopGo_step_fail tm tr (B1 + 1) (B1 + 1) 0 none _ he himm]
    simp
  constructor
  · intro hra hR
    rw [hreq]
    simp [computeDelay, RateLimitError, hra, jsNumTruthy, hR]
  · intro hra
    rw [hreq]
    simp [computeDelay, RateLimitError, hra, jsNumTruthy]

/-- C2 witness: on the 429 + `Retry-After: 7` scenario with budget 1 the
delay before the second attempt is exactly 7000 ms. -/
theorem c2_witness :
    (request 60000 1 (fun k =>
      if k = 0 then .httpErr 429 "Too Many Requests" [("Retry-After", "7")]
        (.withError ⟨some "rate_limit_error", some "rate_limit_exceeded", some "Rate limited", none⟩)
      else .success "bal")).delays.head? = some ((7 : Int) * 1000) :=
  (c2_retry_after_delay 60000 1 _ 429 "Too Many Requests" [("Retry-After", "7")]
    ⟨some "rate_limit_error", some "rate_limit_exceeded", some "Rate limited", none⟩ 7
    (by decide) (by decide) (by decide)).1 (by decide) (by decide)

/-- C3: when every attempt fails with a retryable failure, the transport
is invoked exactly `B + 1` times for a budget of `B` retries, a backoff
delay is slept after each non-final attempt, and the call rejects with the
last recorded failure; the second conjunct shows the loop-exit fallback:
had no failure ever been recorded, the rejection would be the Network-kind
fallback error. -/
theorem c3_budget_exhausted (tm : Int) (B : Nat) (tr : Nat → AttemptOutcome)
    (e : Nat → JsError)
    (h : ∀ k, k ≤ B → tryAttempt (tr k) = .fail (e k) ∧ retryable (e k) = true) :
    request tm B tr =
      { calls := B + 1
        delays := (List.range B).map (fun i => computeDelay (e i) i)
        result := .fail (reclassify tm (e B)) }
    ∧ loopGo tm tr B 0 (B + 1) none =
      { calls := 0, delays := []
        result := .fail (.peercat (NetworkError "Request failed after retries")) } := by
  constructor
  · unfold request
    rw [loopGo_all_fail tm tr B e B 0 none (by omega)
      (fun k _ hk2 => ⟨(h k hk2).1, by simpa [retryable] using (h k hk2).2⟩)]
    rw [delaysFor_eq_range]
    simp
  · simp [loopGo]

/-- C3 witness: with budget 2, three attempts are made with delays 1000 ms
and 2000 ms, and the call rejects with the wrapped `NetworkError`. -/
theorem c3_witness :
    request 60000 2 trC3 =
      { calls := 3, delays := [1000, 2000]
        result := .fail (.peercat (NetworkError "Network request failed")) } := by
  rw [(c3_budget_exhausted 60000 2 trC3
    (fun _ => .plain ⟨"TypeError", "Failed to fetch", true⟩) (by decide)).1]
  decide

/-- C4: when the first `N` attempts fail with retryable failures and
attempt `N + 1` succeeds, with a retry budget of at least `N`, the call
resolves with the successful result and the transport is invoked exactly
`N + 1` times. -/
theorem c4_success_after_retries (tm : Int) (B N : Nat) (tr : Nat → AttemptOutcome)
    (e : Nat → JsError) (body : String)
    (hNB : N ≤ B)
    (hf : ∀ k, k < N → tryAttempt (tr k) = .fail (e k) ∧ retryable (e k) = true)
    (hs : tryAttempt (tr N) = .ok body) :
    request tm B tr =
      { calls := N + 1
        delays := (List.range N).map (fun i => computeDelay (e i) i)
        result := .ok body } := by
  unfold request
  rw [loopGo_succeeds tm tr B e body N 0 (B + 1) none (by omega) (by omega)
    (fun k _ hk2 => ⟨(hf k (by omega)).1, by simpa [retryable] using (hf k (by omega)).2⟩)
    (by simpa using hs)]
  rw [delaysFor_eq_range]
  simp

/-- C4 witness: two 500s then success with budget 3 resolves with the
body after exactly 3 transport invocations. -/
theorem c4_witness :
    request 60000 3 trC4 = { calls := 3, delays := [1000, 2000], result := .ok "bal" } := by
  rw [c4_success_after_retries 60000 3 2 trC4
    (fun _ => .peercat (PeerCatError.mkE (some "Error") (some "server_error") (some "internal_error") none 500))
    "bal" (by decide) (by decide) (by decide)]
  decide

/-- C5: the error mapper is a fixed lookup on the payload type tag with
one default case: each known tag yields its error kind with its fixed
semantic status (and the offending parameter or the parsed rate-limit
hints where applicable), any other tag yields a base error preserving the
original tag and the actually observed HTTP status, and every resulting
error carries the payload message and code. -/
theorem c5_error_mapper (p : ApiErrorPayload) (st : Int) (rli : Option RateLimitInfo) :
    ((PeerCatError.fromResponse p st rli).message = p.message
     ∧ (PeerCatError.fromResponse p st rli).code = p.code)
    ∧ (p.type = some "authentication_error" →
        PeerCatError.fromResponse p st rli = AuthenticationError p.message p.code p.param
        ∧ (PeerCatError.fromResponse p st rli).status = 401)
    ∧ (p.type = some "invalid_request_error" →
        PeerCatError.fromResponse p st rli = InvalidRequestError p.message p.code p.param
        ∧ (PeerCatError.fromResponse p st rli).status = 400
        ∧ (PeerCatError.fromResponse p st rli).param = p.param)
    ∧ (p.type = some "insufficient_credits" →
        PeerCatError.fromResponse p st rli = InsufficientCreditsError p.message p.code
        ∧ (PeerCatError.fromResponse p st rli).status = 402)
    ∧ (p.type = some "rate_limit_error" →
        PeerCatError.fromResponse p st rli = RateLimitError p.message p.code rli
        ∧ (PeerCatError.fromResponse p st rli).status = 429
        ∧ (PeerCatError.fromResponse p st rli).rateLimitInfo = rli
        ∧ (PeerCatError.fromResponse p st rli).retryAfter = rli.bind RateLimitInfo.retryAfter)
    ∧ (p.type = some "not_found" →
        PeerCatError.fromResponse p st rli = NotFoundError p.message p.code p.param
        ∧ (PeerCatError.fromResponse p st rli).status = 404
        ∧ (PeerCatError.fromResponse p st rli).param = p.param)
    ∧ (p.type ≠ some "authentication_error" → p.type ≠ some "invalid_request_error" →
       p.type ≠ some "insufficient_credits" → p.type ≠ some "rate_limit_error" →
       p.type ≠ some "not_found" →
        PeerCatError.fromResponse p st rli = PeerCatError.mkE p.message p.type p.code p.param st
        ∧ (PeerCatError.fromResponse p st rli).type = p.type
        ∧ (PeerCatError.fromResponse p st rli).status = st) := by
  by_cases h1 : p.type = some "authentication_error"
  · simp [PeerCatError.fromResponse, h1, AuthenticationError]
  · by_cases h2 : p.type = some "invalid_request_error"
    · simp [PeerCatError.fromResponse, h2, InvalidRequestError]
    · by_cases h3 : p.type = some "insufficient_credits"
      · simp [PeerCatError.fromResponse, h3, InsufficientCreditsError]
      · by_cases h4 : p.type = some "rate_limit_error"
        · simp [PeerCatError.fromResponse, h4, RateLimitError]
        · by_cases h5 : p.type = some "not_found"
          · simp [PeerCatError.fromResponse, h5, NotFoundError]
          · simp [PeerCatError.fromResponse, h1, h2, h3, h4, h5, PeerCatError.mkE]

/-- C5 witness: a `not_found` payload observed with HTTP 500 maps to a
`NotFoundError` with semantic status 404 carrying the offending param. -/
theorem c5_witness :
    PeerCatError.fromResponse
        ⟨some "not_found", some "resource_missing", some "Generation not found", some "id"⟩ 500 none
      = NotFoundError (some "Generation not found") (some "resource_missing") (some "id")
    ∧ (PeerCatError.fromResponse
        ⟨some "not_found", some "resource_missing", some "Generation not found", some "id"⟩ 500 none).status = 404 := by
  have h := c5_error_mapper
    ⟨some "not_found", some "resource_missing", some "Generation not found", some "id"⟩ 500 none
  exact ⟨(h.2.2.2.2.2.1 rfl).1, (h.2.2.2.2.2.1 rfl).2.1⟩

/-- One unfolding of the loop when the attempt fails with a failure that is
rethrown immediately. -/
lemma loopGo_step_throw (tm : Int) (tr : Nat → AttemptOutcome) (B fuel a : Nat)
    (last : Option JsError) (e : JsError)
    (h1 : tryAttempt (tr a) = .fail e) (h2 : throwsImmediately e = true) :
    loopGo tm tr B (fuel + 1) a last = { calls := 1, delays := [], result := .fail e } := by
  simp [loopGo, h1, h2]

/-- C6 counterexample: a non-success response whose body is valid JSON
with no error property at all (destructuring undefined throws) rejects
with a raw `TypeError` — an unclassified exception — and not with a
synthesized api_error-category error as the claim requires. -/
theorem c6_counterexample :
    (request 60000 0 (fun _ => .httpErr 500 "Internal Server Error" [] .noErrorObj)).result
      = .fail (.plain ⟨"TypeError", destructureMsg, true⟩)
    ∧ isSynthApiError
        (request 60000 0 (fun _ => .httpErr 500 "Internal Server Error" [] .noErrorObj)).result
      = false :=
  ⟨by decide, by decide⟩

/-- A call whose every attempt throws one fixed base `PeerCatError` (name
PeerCatError, hence never the rate-limit subclass and never touched by the
abort/fetch reclassification) rejects with exactly that error, whether it
is rethrown immediately (4xx status) or retried to exhaustion. -/
lemma request_fails_with_base_error (tm : Int) (B : Nat) (tr : Nat → AttemptOutcome)
    (E : PeerCatError) (hname : E.name = "PeerCatError")
    (htry : ∀ k, k ≤ B → tryAttempt (tr k) = .fail (.peercat E)) :
    (request tm B tr).result = .fail (.peercat E) := by
  by_cases himm : throwsImmediately (.peercat E) = true
  · unfold request
    rw [loopGo_step_throw tm tr B B 0 none _ (htry 0 (by omega)) himm]
  · have ht : throwsImmediately (.peercat E) = false := by
      revert himm
      cases throwsImmediately (.peercat E) <;> simp
    unfold request
    rw [loopGo_all_fail tm tr B (fun _ => .peercat E) B 0 none (by omega)
      (fun k _ hk2 => ⟨htry k hk2, ht⟩)]
    simp [reclassify, JsError.errName, isFetchTypeError, hname]

/-- C6 (amended): a non-success response whose body fails to parse as JSON
is replaced by the synthesized generic error of type api_error carrying the
literal HTTP status and status text, and that error is what the call
rejects with. A JSON body whose error property is undefined or null makes
the destructuring in the error mapper throw a raw `TypeError`, which is
surfaced unclassified. A JSON body whose error property destructures but
carries no recognized type tag (a partial object or a primitive) rejects
with a base `PeerCatError` preserving the destructured, possibly
undefined, fields together with the observed HTTP status. In every case
the call rejects; no failure is silently swallowed. -/
theorem c6_malformed_error_bodies (tm : Int) (B : Nat) (tr : Nat → AttemptOutcome)
    (st : Int) (stx : String) (hs : Nat → Headers0) (p : ApiErrorPayload) :
    ((∀ k, k ≤ B → tr k = .httpErr st stx (hs k) .parseFail) →
      (request tm B tr).result = .fail (.peercat
        (PeerCatError.mkE (some ("HTTP " ++ toString st ++ ": " ++ stx)) (some "api_error")
          (some ("http_" ++ toString st)) none st)))
    ∧ ((∀ k, k ≤ B → tr k = .httpErr st stx (hs k) .noErrorObj) →
      (request tm B tr).result = .fail (.plain ⟨"TypeError", destructureMsg, true⟩))
    ∧ ((∀ k, k ≤ B → tr k = .httpErr st stx (hs k) (.withError p)) →
       p.type ≠ some "authentication_error" → p.type ≠ some "invalid_request_error" →
       p.type ≠ some "insufficient_credits" → p.type ≠ some "rate_limit_error" →
       p.type ≠ some "not_found" →
      (request tm B tr).result = .fail (.peercat
        (PeerCatError.mkE p.message p.type p.code p.param st))) := by
  refine ⟨?_, ?_, ?_⟩
  · intro h
    apply request_fails_with_base_error tm B tr _ rfl
    intro k hk
    rw [h k hk]
    simp [tryAttempt, PeerCatError.fromResponse, PeerCatError.mkE]
  · intro h
    have htry : ∀ k, k ≤ B →
        tryAttempt (tr k) = .fail (.plain ⟨"TypeError", destructureMsg, true⟩) := by
      intro k hk
      rw [h k hk]
      rfl
    unfold request
    rw [loopGo_all_fail tm tr B (fun _ => .plain ⟨"TypeError", destructureMsg, true⟩) B 0 none
      (by omega) (fun k _ hk2 => ⟨htry k hk2, rfl⟩)]
    simp [reclassify, JsError.errName, isFetchTypeError, destructureMsg, jsIncludes]
    decide
  · intro h h1 h2 h3 h4 h5
    apply request_fails_with_base_error tm B tr _ rfl
    intro k hk
    rw [h k hk]
    simp [tryAttempt, PeerCatError.fromResponse, h1, h2, h3, h4, h5, PeerCatError.mkE]

/-- C6 witness: a 503 with an unparsable body rejects with the synthesized
api_error carrying the literal status and status text, and a 500 whose
JSON body holds only a partial error object (a message, no type and no
code) rejects with a base `PeerCatError` whose type and code are undefined
and whose status is the observed 500. -/
theorem c6_witness :
    (request 60000 1 (fun _ => .httpErr 503 "Service Unavailable" [] .parseFail)).result
      = .fail (.peercat (PeerCatError.mkE (some "HTTP 503: Service Unavailable") (some "api_error")
          (some "http_503") none 503))
    ∧ (request 60000 0 (fun _ => .httpErr 500 "Internal Server Error" []
          (.withError ⟨none, none, some "Partial error", none⟩))).result
      = .fail (.peercat (PeerCatError.mkE (some "Partial error") none none none 500)) := by
  constructor
  · rw [(c6_malformed_error_bodies 60000 1
      (fun _ => .httpErr 503 "Service Unavailable" [] .parseFail)
      503 "Service Unavailable" (fun _ => []) ⟨none, none, some "Partial error", none⟩).1
      (by decide)]
    decide
  · rw [(c6_malformed_error_bodies 60000 0
      (fun _ => .httpErr 500 "Internal Server Error" []
        (.withError ⟨none, none, some "Partial error", none⟩))
      500 "Internal Server Error" (fun _ => []) ⟨none, none, some "Partial error", none⟩).2.2
      (by decide) (by decide) (by decide) (by decide) (by decide) (by decide)]

/-- C7: when every attempt is cancelled by the per-attempt timeout (the
transport rejects with an abort-named error), the recorded and surfaced
failure is the Timeout-kind error — type timeout_error, status 0, not the
Network kind — and it is retryable, so all budgeted attempts are made. -/
theorem c7_abort_is_timeout (tm : Int) (B : Nat) (tr : Nat → AttemptOutcome) (p : PlainErr)
    (hname : p.name = "AbortError") (hty : p.isTypeError = false)
    (h : ∀ k, k ≤ B → tr k = .reject p) :
    request tm B tr =
      { calls := B + 1
        delays := (List.range B).map (fun i => computeDelay (.plain p) i)
        result := .fail (.peercat (TimeoutError (timeoutMessage tm))) }
    ∧ (TimeoutError (timeoutMessage tm)).type = some "timeout_error"
    ∧ (TimeoutError (timeoutMessage tm)).status = 0
    ∧ (TimeoutError (timeoutMessage tm)).name ≠ "NetworkError"
    ∧ retryable (.peercat (TimeoutError (timeoutMessage tm))) = true := by
  refine ⟨?_, by simp [TimeoutError], by simp [TimeoutError], by simp [TimeoutError],
    by simp [retryable, throwsImmediately, TimeoutError]⟩
  have hre : reclassify tm (.plain p) = .peercat (TimeoutError (timeoutMessage tm)) := by
    simp [reclassify, JsError.errName, hname, isFetchTypeError, hty]
  unfold request
  rw [loopGo_all_fail tm tr B (fun _ => .plain p) B 0 none (by omega)
    (fun k _ hk2 => ⟨by rw [h k hk2]; rfl, rfl⟩)]
  rw [hre, delaysFor_eq_range]
  simp

/-- C7 witness: with budget 1, both attempts abort and the call rejects
with the `TimeoutError` built from the configured 60000 ms timeout. -/
theorem c7_witness :
    request 60000 1 trC7 =
      { calls := 2, delays := [1000]
        result := .fail (.peercat (TimeoutError "Request timed out after 60000ms")) } := by
  rw [(c7_abort_is_timeout 60000 1 trC7 ⟨"AbortError", "The operation was aborted", false⟩
    (by decide) (by decide) (by decide)).1]
  decide

/-- C8: `getHistory` serializes only `limit` and `offset`, each only when
truthy: limit 10 and offset 20 give exactly `/v1/history?limit=10&offset=20`,
while absent or falsy parameters (such as offset 0) give exactly
`/v1/history` with no query string. -/
theorem c8_history_path :
    buildHistoryPath (some 10) (some 20) = "/v1/history?limit=10&offset=20"
    ∧ buildHistoryPath none none = "/v1/history"
    ∧ buildHistoryPath none (some 0) = "/v1/history"
    ∧ buildHistoryPath (some 0) (some 0) = "/v1/history"
    ∧ buildHistoryPath (some 50) none = "/v1/history?limit=50" := by
  decide

/-- C9 counterexample: the constructor strips only one trailing slash, so
a base address supplied with two trailing slashes is stored still ending
in a slash, violating the no-trailing-slash invariant as claimed. -/
theorem c9_counterexample :
    mkPeerCat ⟨"key", some "https://api.example.com//", none, none, true⟩ false =
      .ok ⟨"key", "https://api.example.com/", 60000, 3⟩
    ∧ "https://api.example.com/".toList.getLast? = some '/' :=
  ⟨by decide, by decide⟩

/-- C9 (amended): construction fails when the credential is empty and when
no transport function is available (neither supplied nor global); otherwise
it succeeds with an immutable state whose base address is the supplied (or
default) address with a single trailing slash stripped, and with the
documented defaults for timeout and retry count. -/
theorem c9_constructor (cfg : PeerCatConfig) (g : Bool) :
    (cfg.apiKey = "" → mkPeerCat cfg g = .error "API key is required")
    ∧ (cfg.apiKey ≠ "" → (cfg.hasFetch || g) = false →
        mkPeerCat cfg g =
          .error "fetch is not available. Please provide a fetch implementation or use Node.js 18+")
    ∧ (cfg.apiKey ≠ "" → (cfg.hasFetch || g) = true →
        mkPeerCat cfg g = .ok
          { apiKey := cfg.apiKey
            baseUrl := stripTrailingSlash (cfg.baseUrl.getD "https://api.peerc.at")
            timeout := cfg.timeout.getD 60000
            maxRetries := cfg.maxRetries.getD 3 }) := by
  refine ⟨fun h1 => by simp [mkPeerCat, h1], fun h1 h2 => by simp [mkPeerCat, h1, h2],
    fun h1 h2 => by simp [mkPeerCat, h1, h2]⟩

/-- C9 witness: a single trailing slash is stripped and defaults applied. -/
theorem c9_witness :
    mkPeerCat ⟨"k", some "https://api.example.com/", none, none, true⟩ false =
      .ok ⟨"k", "https://api.example.com", 60000, 3⟩ := by
  rw [(c9_constructor ⟨"k", some "https://api.example.com/", none, none, true⟩ false).2.2
    (by decide) (by decide)]
  decide

/-- C10: when every attempt yields an HTTP-success response whose body
fails to parse as JSON, the parse failure is retryable: the transport is
invoked `maxRetries + 1` times with the exponential backoff delays between
attempts, and the call rejects with the raw parse error itself, not a
categorized `PeerCatError`. -/
theorem c10_success_parse_failure (tm : Int) (B : Nat) (tr : Nat → AttemptOutcome)
    (pe : Nat → PlainErr)
    (h : ∀ k, k ≤ B → tr k = .okParseFail (pe k))
    (hn : ∀ k, k ≤ B → (pe k).name = "SyntaxError" ∧ (pe k).isTypeError = false) :
    request tm B tr =
      { calls := B + 1
        delays := (List.range B).map (fun i => min (1000 * 2 ^ i) 10000)
        result := .fail (.plain (pe B)) }
    ∧ failsWithPeerCat (request tm B tr).result = false := by
  have hre : reclassify tm (.plain (pe B)) = .plain (pe B) := by
    simp [reclassify, JsError.errName, (hn B (le_refl B)).1, isFetchTypeError,
      (hn B (le_refl B)).2]
  have hmain : request tm B tr =
      { calls := B + 1
        delays := (List.range B).map (fun i => min (1000 * 2 ^ i) 10000)
        result := .fail (.plain (pe B)) } := by
    unfold request
    rw [loopGo_all_fail tm tr B (fun k => .plain (pe k)) B 0 none (by omega)
      (fun k _ hk2 => ⟨by rw [h k hk2]; rfl, rfl⟩)]
    rw [hre, delaysFor_eq_range]
    simp [computeDelay]
  exact ⟨hmain, by rw [hmain]; rfl⟩

/-- C10 witness: budget 2 gives three attempts, delays 1000 and 2000 ms,
and the raw `SyntaxError` surfaced. -/
theorem c10_witness :
    request 60000 2 trC10 =
      { calls := 3, delays := [1000, 2000]
        result := .fail (.plain ⟨"SyntaxError", "Unexpected token", false⟩) } := by
  rw [(c10_success_parse_failure 60000 2 trC10
    (fun _ => ⟨"SyntaxError", "Unexpected token", false⟩) (by decide) (by decide)).1]
  decide
